import Mathlib

/-!
GPU/D3D11/D3D11Util.cpp

A shallow embedding of the shader-creation helpers and of the stock-object
catalog (`StockObjectsD3D11`).  The Direct3D device and the HLSL compiler are
external: they appear as arbitrary functions of the call history and of the
request, and every call the code makes on them is appended to a trace.
-/

set_option maxRecDepth 100000
set_option autoImplicit false

namespace D3D11Util

/-! ## Basic types -/

/-- An octet of a source text, a diagnostic text or a bytecode blob. -/
abbrev Byte := Fin 256

/-- A COM interface pointer; `0` is `nullptr`. -/
abbrev Handle := Nat

/-- The `nullptr` interface pointer. -/
def nullHandle : Handle := 0

/-- A Windows status code (a signed 32-bit value). -/
abbrev HRESULT := Int

/-- The Windows SDK test `SUCCEEDED(hr)`, which is `hr >= 0`. -/
def SUCCEEDED (hr : HRESULT) : Bool := decide (0 ≤ hr)

/-- The bytes a `const char *` denotes when it is read as a C string (what
`%s` prints of `errors.c_str()`): everything before the first NUL. -/
def c_str (s : List Byte) : List Byte := s.takeWhile (fun b => b != 0)

/-! ## Direct3D descriptors (d3d11.h), every member kept

Enumerations are carried as their numeric values, since value-initialisation
(`desc{}`) puts `0` in every member, which is not always an enumerator.
Floating-point members are only ever value-initialised here and are carried
as their bit patterns. -/

def D3D11_STENCIL_OP_REPLACE : Nat := 3
def D3D11_COMPARISON_ALWAYS : Nat := 8
def D3D11_FILL_SOLID : Nat := 3
def D3D11_CULL_NONE : Nat := 1
def D3D11_TEXTURE_ADDRESS_WRAP : Nat := 1
def D3D11_TEXTURE_ADDRESS_CLAMP : Nat := 3
def D3D11_FILTER_MIN_MAG_MIP_POINT : Nat := 0
def D3D11_FILTER_MIN_MAG_MIP_LINEAR : Nat := 0x15

structure D3D11_RENDER_TARGET_BLEND_DESC where
  BlendEnable : Bool
  SrcBlend : Nat
  DestBlend : Nat
  BlendOp : Nat
  SrcBlendAlpha : Nat
  DestBlendAlpha : Nat
  BlendOpAlpha : Nat
  RenderTargetWriteMask : Nat
  deriving DecidableEq, Repr

structure D3D11_BLEND_DESC where
  AlphaToCoverageEnable : Bool
  IndependentBlendEnable : Bool
  RenderTarget : List D3D11_RENDER_TARGET_BLEND_DESC
  deriving DecidableEq, Repr

structure D3D11_DEPTH_STENCILOP_DESC where
  StencilFailOp : Nat
  StencilDepthFailOp : Nat
  StencilPassOp : Nat
  StencilFunc : Nat
  deriving DecidableEq, Repr

structure D3D11_DEPTH_STENCIL_DESC where
  DepthEnable : Bool
  DepthWriteMask : Nat
  DepthFunc : Nat
  StencilEnable : Bool
  StencilReadMask : Nat
  StencilWriteMask : Nat
  FrontFace : D3D11_DEPTH_STENCILOP_DESC
  BackFace : D3D11_DEPTH_STENCILOP_DESC
  deriving DecidableEq, Repr

structure D3D11_RASTERIZER_DESC where
  FillMode : Nat
  CullMode : Nat
  FrontCounterClockwise : Bool
  DepthBias : Int
  DepthBiasClamp : Nat
  SlopeScaledDepthBias : Nat
  DepthClipEnable : Bool
  ScissorEnable : Bool
  MultisampleEnable : Bool
  AntialiasedLineEnable : Bool
  deriving DecidableEq, Repr

structure D3D11_SAMPLER_DESC where
  Filter : Nat
  AddressU : Nat
  AddressV : Nat
  AddressW : Nat
  MipLODBias : Nat
  MaxAnisotropy : Nat
  ComparisonFunc : Nat
  BorderColor : List Nat
  MinLOD : Nat
  MaxLOD : Nat
  deriving DecidableEq, Repr

/-- The value-initialised render-target blend descriptor. -/
def D3D11_RENDER_TARGET_BLEND_DESC.zero : D3D11_RENDER_TARGET_BLEND_DESC :=
  { BlendEnable := false, SrcBlend := 0, DestBlend := 0, BlendOp := 0, SrcBlendAlpha := 0,
    DestBlendAlpha := 0, BlendOpAlpha := 0, RenderTargetWriteMask := 0 }

/-- The descriptor `D3D11_BLEND_DESC blend_desc{}`: eight zeroed render targets. -/
def D3D11_BLEND_DESC.zero : D3D11_BLEND_DESC :=
  { AlphaToCoverageEnable := false, IndependentBlendEnable := false,
    RenderTarget := List.replicate 8 D3D11_RENDER_TARGET_BLEND_DESC.zero }

def D3D11_DEPTH_STENCILOP_DESC.zero : D3D11_DEPTH_STENCILOP_DESC :=
  { StencilFailOp := 0, StencilDepthFailOp := 0, StencilPassOp := 0, StencilFunc := 0 }

/-- The descriptor `D3D11_DEPTH_STENCIL_DESC depth_desc{}`. -/
def D3D11_DEPTH_STENCIL_DESC.zero : D3D11_DEPTH_STENCIL_DESC :=
  { DepthEnable := false, DepthWriteMask := 0, DepthFunc := 0, StencilEnable := false,
    StencilReadMask := 0, StencilWriteMask := 0,
    FrontFace := D3D11_DEPTH_STENCILOP_DESC.zero, BackFace := D3D11_DEPTH_STENCILOP_DESC.zero }

/-- The descriptor `D3D11_RASTERIZER_DESC raster_desc{}`. -/
def D3D11_RASTERIZER_DESC.zero : D3D11_RASTERIZER_DESC :=
  { FillMode := 0, CullMode := 0, FrontCounterClockwise := false, DepthBias := 0,
    DepthBiasClamp := 0, SlopeScaledDepthBias := 0, DepthClipEnable := false,
    ScissorEnable := false, MultisampleEnable := false, AntialiasedLineEnable := false }

/-- The descriptor `D3D11_SAMPLER_DESC sampler_desc{}`. -/
def D3D11_SAMPLER_DESC.zero : D3D11_SAMPLER_DESC :=
  { Filter := 0, AddressU := 0, AddressV := 0, AddressW := 0, MipLODBias := 0,
    MaxAnisotropy := 0, ComparisonFunc := 0, BorderColor := List.replicate 4 0,
    MinLOD := 0, MaxLOD := 0 }

/-- The assignment `blend_desc.RenderTarget[0].BlendEnable = v`. -/
def D3D11_BLEND_DESC.setBlendEnable0 (d : D3D11_BLEND_DESC) (v : Bool) : D3D11_BLEND_DESC :=
  { d with RenderTarget := d.RenderTarget.modify (fun rt => { rt with BlendEnable := v }) 0 }

/-- The assignment `blend_desc.RenderTarget[0].RenderTargetWriteMask = i`, for
an `int i` stored into a `UINT8` member. -/
def D3D11_BLEND_DESC.setWriteMask0 (d : D3D11_BLEND_DESC) (i : Nat) : D3D11_BLEND_DESC :=
  { d with RenderTarget :=
      d.RenderTarget.modify (fun rt => { rt with RenderTargetWriteMask := i % 256 }) 0 }

/-! ## The outside world: compiler, device, log -/

/-- The arguments of one `D3DCompile` call, in the order of its parameters
(the two out-pointers excepted); `none` is `nullptr`. -/
structure D3DCompileArgs where
  pSrcData : List Byte
  SrcDataSize : Nat
  pSourceName : Option String
  pDefines : Option Unit
  pInclude : Option Unit
  pEntrypoint : String
  pTarget : String
  Flags1 : Nat
  Flags2 : Nat
  deriving DecidableEq, Repr

/-- What one `D3DCompile` call answers: its status and the two blobs it stores
through `ppCode` and `ppErrorMsgs` (`none`: the pointer stays `nullptr`).  A
blob is its buffer, `GetBufferSize()` bytes long. -/
structure D3DCompileResult where
  result : HRESULT
  compiledCode : Option (List Byte)
  errorMsgs : Option (List Byte)
  deriving DecidableEq, Repr

/-- A creation call on `ID3D11Device`.  The shader creations carry the buffer
and the length passed (`byteCode.data()`, `byteCode.size()`). -/
inductive Request where
  | CreateVertexShader (pShaderBytecode : List Byte) (BytecodeLength : Nat)
  | CreatePixelShader (pShaderBytecode : List Byte) (BytecodeLength : Nat)
  | CreateComputeShader (pShaderBytecode : List Byte) (BytecodeLength : Nat)
  | CreateGeometryShader (pShaderBytecode : List Byte) (BytecodeLength : Nat)
  | CreateBlendState (desc : D3D11_BLEND_DESC)
  | CreateDepthStencilState (desc : D3D11_DEPTH_STENCIL_DESC)
  | CreateRasterizerState (desc : D3D11_RASTERIZER_DESC)
  | CreateSamplerState (desc : D3D11_SAMPLER_DESC)
  deriving DecidableEq, Repr

/-- Everything the code does to the outside world, in order. -/
inductive Event where
  | D3DCompile (args : D3DCompileArgs) (answer : D3DCompileResult)
  | ELOG (label : String) (text : List Byte)
  | OutputDebugStringA (text : List Byte)
  | BlobRelease (blob : List Byte)
  | Create (req : Request) (status : HRESULT) (out : Handle)
  | Release (h : Handle)
  deriving DecidableEq, Repr

/-- The compiler entry point `ptr_D3DCompile`: any function of the history and
of the arguments. -/
abbrev Compiler := List Event → D3DCompileArgs → D3DCompileResult

/-- An `ID3D11Device`: any function of the history and of the request, giving
the status of the call and the pointer it stores through the out-parameter
(`nullptr` when it creates nothing). -/
abbrev ID3D11Device := List Event → Request → HRESULT × Handle

/-- One creation call on the device: the answer is recorded in the trace and
the pointer stored through the out-parameter is handed back; the status is
dropped, as every call site drops it. -/
def deviceCreate (device : ID3D11Device) (req : Request) (t : List Event) :
    Handle × List Event :=
  ((device t req).2, t ++ [Event.Create req (device t req).1 (device t req).2])

/-! ## Shader compilation -/

/-- The argument list of the one compiler call, `ptr_D3DCompile(code, codeSize,
nullptr, nullptr, nullptr, "main", target, flags, 0, &compiledCode, &errorMsgs)`. -/
def compileArgs (code : List Byte) (codeSize : Nat) (target : String) (flags : Nat) :
    D3DCompileArgs :=
  { pSrcData := code, SrcDataSize := codeSize, pSourceName := none, pDefines := none,
    pInclude := none, pEntrypoint := "main", pTarget := target, Flags1 := flags, Flags2 := 0 }

/-- The function `CompileShaderToBytecode`.  `LineNumberString` is the text
utility of base/stringutil.h, taken as a parameter; it takes a `std::string`,
which the call builds from the `const char *code`, read up to its first NUL. -/
def CompileShaderToBytecode (ptr_D3DCompile : Compiler)
    (LineNumberString : List Byte → List Byte)
    (code : List Byte) (codeSize : Nat) (target : String) (flags : Nat)
    (t : List Event) : List Byte × List Event :=
  let args := compileArgs code codeSize target flags
  let answer := ptr_D3DCompile t args
  let t := t ++ [Event.D3DCompile args answer]
  let t :=
    match answer.errorMsgs with
    | some errorMsgs =>
      let errors := errorMsgs
      t ++ [Event.ELOG (if SUCCEEDED answer.result then "warnings" else "errors") (c_str errors),
            Event.OutputDebugStringA (LineNumberString (c_str code)),
            Event.BlobRelease errorMsgs]
    | none => t
  match answer.compiledCode with
  | some compiledCode => (compiledCode, t ++ [Event.BlobRelease compiledCode])
  | none => ([], t)

/-- The function `CreateVertexShaderD3D11`.  `byteCodeOut` is `none` for a null
pointer and otherwise the vector it points to; the vector after the call is
the second component of the result. -/
def CreateVertexShaderD3D11 (ptr_D3DCompile : Compiler) (LineNumberString : List Byte → List Byte)
    (device : ID3D11Device) (code : List Byte) (codeSize : Nat)
    (byteCodeOut : Option (List Byte)) (flags : Nat) (t : List Event) :
    Handle × Option (List Byte) × List Event :=
  let (byteCode, t) := CompileShaderToBytecode ptr_D3DCompile LineNumberString code codeSize
      "vs_5_0" flags t
  if byteCode.isEmpty then
    (nullHandle, byteCodeOut, t)
  else
    let (vs, t) := deviceCreate device (Request.CreateVertexShader byteCode byteCode.length) t
    let byteCodeOut := match byteCodeOut with
      | some _ => some byteCode
      | none => none
    (vs, byteCodeOut, t)

/-- The function `CreatePixelShaderD3D11`. -/
def CreatePixelShaderD3D11 (ptr_D3DCompile : Compiler) (LineNumberString : List Byte → List Byte)
    (device : ID3D11Device) (code : List Byte) (codeSize : Nat) (flags : Nat)
    (t : List Event) : Handle × List Event :=
  let (byteCode, t) := CompileShaderToBytecode ptr_D3DCompile LineNumberString code codeSize
      "ps_5_0" flags t
  if byteCode.isEmpty then
    (nullHandle, t)
  else
    let (ps, t) := deviceCreate device (Request.CreatePixelShader byteCode byteCode.length) t
    (ps, t)

/-- The function `CreateComputeShaderD3D11`. -/
def CreateComputeShaderD3D11 (ptr_D3DCompile : Compiler) (LineNumberString : List Byte → List Byte)
    (device : ID3D11Device) (code : List Byte) (codeSize : Nat) (flags : Nat)
    (t : List Event) : Handle × List Event :=
  let (byteCode, t) := CompileShaderToBytecode ptr_D3DCompile LineNumberString code codeSize
      "cs_5_0" flags t
  if byteCode.isEmpty then
    (nullHandle, t)
  else
    let (cs, t) := deviceCreate device (Request.CreateComputeShader byteCode byteCode.length) t
    (cs, t)

/-- The function `CreateGeometryShaderD3D11`. -/
def CreateGeometryShaderD3D11 (ptr_D3DCompile : Compiler) (LineNumberString : List Byte → List Byte)
    (device : ID3D11Device) (code : List Byte) (codeSize : Nat) (flags : Nat)
    (t : List Event) : Handle × List Event :=
  let (byteCode, t) := CompileShaderToBytecode ptr_D3DCompile LineNumberString code codeSize
      "gs_5_0" flags t
  if byteCode.isEmpty then
    (nullHandle, t)
  else
    let (gs, t) := deviceCreate device (Request.CreateGeometryShader byteCode byteCode.length) t
    (gs, t)

/-! ## Stock objects -/

/-- Modelled from the spec: the class declaration (D3D11Util.h) is not among the
sources; the members are the ones `Create` and `Destroy` name, a table of 16
blend states and seven single state objects. -/
structure StockObjectsD3D11 where
  blendStateDisabledWithColorMask : Fin 16 → Handle
  depthStencilDisabled : Handle
  depthDisabledStencilWrite : Handle
  rasterStateNoCull : Handle
  samplerPoint2DWrap : Handle
  samplerLinear2DWrap : Handle
  samplerPoint2DClamp : Handle
  samplerLinear2DClamp : Handle

/-- The global `StockObjectsD3D11 stockD3D11;` as static initialisation leaves
it: every member `nullptr`. -/
def stockD3D11 : StockObjectsD3D11 :=
  { blendStateDisabledWithColorMask := fun _ => nullHandle,
    depthStencilDisabled := nullHandle, depthDisabledStencilWrite := nullHandle,
    rasterStateNoCull := nullHandle, samplerPoint2DWrap := nullHandle,
    samplerLinear2DWrap := nullHandle, samplerPoint2DClamp := nullHandle,
    samplerLinear2DClamp := nullHandle }

/-- The 23 members in the order `Create` fills them and `Destroy` releases
them: the 16 blend states, then the two depth-stencil states, the rasterizer
state and the four samplers. -/
def StockObjectsD3D11.entries (self : StockObjectsD3D11) : List Handle :=
  (List.finRange 16).map self.blendStateDisabledWithColorMask ++
    [self.depthStencilDisabled, self.depthDisabledStencilWrite, self.rasterStateNoCull,
     self.samplerPoint2DWrap, self.samplerLinear2DWrap, self.samplerPoint2DClamp,
     self.samplerLinear2DClamp]

/-- The method `StockObjectsD3D11::Create`. -/
def StockObjectsD3D11.Create (self : StockObjectsD3D11) (device : ID3D11Device)
    (t : List Event) : StockObjectsD3D11 × List Event :=
  let blend_desc : D3D11_BLEND_DESC := D3D11_BLEND_DESC.zero
  let blend_desc : D3D11_BLEND_DESC := blend_desc.setBlendEnable0 false
  let blend_desc : D3D11_BLEND_DESC := { blend_desc with IndependentBlendEnable := false }
  let st : D3D11_BLEND_DESC × StockObjectsD3D11 × List Event :=
    (List.finRange 16).foldl
      (fun (st : D3D11_BLEND_DESC × StockObjectsD3D11 × List Event) (i : Fin 16) =>
        let blend_desc : D3D11_BLEND_DESC := st.1.setWriteMask0 i.val
        let r : Handle × List Event := deviceCreate device (Request.CreateBlendState blend_desc)
            st.2.2
        (blend_desc,
         { st.2.1 with blendStateDisabledWithColorMask :=
             Function.update st.2.1.blendStateDisabledWithColorMask i r.1 },
         r.2))
      (blend_desc, self, t)
  let self : StockObjectsD3D11 := st.2.1
  let t : List Event := st.2.2

  let depth_desc : D3D11_DEPTH_STENCIL_DESC := D3D11_DEPTH_STENCIL_DESC.zero
  let depth_desc : D3D11_DEPTH_STENCIL_DESC := { depth_desc with DepthEnable := false }
  let r : Handle × List Event := deviceCreate device (Request.CreateDepthStencilState depth_desc) t
  let self : StockObjectsD3D11 := { self with depthStencilDisabled := r.1 }
  let t : List Event := r.2
  let depth_desc : D3D11_DEPTH_STENCIL_DESC := { depth_desc with StencilEnable := true }
  let depth_desc : D3D11_DEPTH_STENCIL_DESC := { depth_desc with StencilReadMask := 0xFF }
  let depth_desc : D3D11_DEPTH_STENCIL_DESC := { depth_desc with StencilWriteMask := 0xFF }
  let depth_desc : D3D11_DEPTH_STENCIL_DESC := { depth_desc with
    FrontFace := { depth_desc.FrontFace with StencilPassOp := D3D11_STENCIL_OP_REPLACE } }
  let depth_desc : D3D11_DEPTH_STENCIL_DESC := { depth_desc with
    FrontFace := { depth_desc.FrontFace with StencilFailOp := D3D11_STENCIL_OP_REPLACE } }
  let depth_desc : D3D11_DEPTH_STENCIL_DESC := { depth_desc with
    FrontFace := { depth_desc.FrontFace with StencilDepthFailOp := D3D11_STENCIL_OP_REPLACE } }
  let depth_desc : D3D11_DEPTH_STENCIL_DESC := { depth_desc with
    FrontFace := { depth_desc.FrontFace with StencilFunc := D3D11_COMPARISON_ALWAYS } }
  let depth_desc : D3D11_DEPTH_STENCIL_DESC := { depth_desc with BackFace := depth_desc.FrontFace }
  let r : Handle × List Event := deviceCreate device (Request.CreateDepthStencilState depth_desc) t
  let self : StockObjectsD3D11 := { self with depthDisabledStencilWrite := r.1 }
  let t : List Event := r.2

  let raster_desc : D3D11_RASTERIZER_DESC := D3D11_RASTERIZER_DESC.zero
  let raster_desc : D3D11_RASTERIZER_DESC := { raster_desc with FillMode := D3D11_FILL_SOLID }
  let raster_desc : D3D11_RASTERIZER_DESC := { raster_desc with CullMode := D3D11_CULL_NONE }
  let raster_desc : D3D11_RASTERIZER_DESC := { raster_desc with ScissorEnable := false }
  let r : Handle × List Event := deviceCreate device (Request.CreateRasterizerState raster_desc) t
  let self : StockObjectsD3D11 := { self with rasterStateNoCull := r.1 }
  let t : List Event := r.2

  let sampler_desc : D3D11_SAMPLER_DESC := D3D11_SAMPLER_DESC.zero
  let sampler_desc : D3D11_SAMPLER_DESC := { sampler_desc with AddressU :=
      D3D11_TEXTURE_ADDRESS_WRAP }
  let sampler_desc : D3D11_SAMPLER_DESC := { sampler_desc with AddressV :=
      D3D11_TEXTURE_ADDRESS_WRAP }
  let sampler_desc : D3D11_SAMPLER_DESC := { sampler_desc with AddressW :=
      D3D11_TEXTURE_ADDRESS_WRAP }
  let sampler_desc : D3D11_SAMPLER_DESC := { sampler_desc with Filter :=
      D3D11_FILTER_MIN_MAG_MIP_POINT }
  let r : Handle × List Event := deviceCreate device (Request.CreateSamplerState sampler_desc) t
  let self : StockObjectsD3D11 := { self with samplerPoint2DWrap := r.1 }
  let t : List Event := r.2
  let sampler_desc : D3D11_SAMPLER_DESC := { sampler_desc with Filter :=
      D3D11_FILTER_MIN_MAG_MIP_LINEAR }
  let r : Handle × List Event := deviceCreate device (Request.CreateSamplerState sampler_desc) t
  let self : StockObjectsD3D11 := { self with samplerLinear2DWrap := r.1 }
  let t : List Event := r.2
  let sampler_desc : D3D11_SAMPLER_DESC := { sampler_desc with AddressU :=
      D3D11_TEXTURE_ADDRESS_CLAMP }
  let sampler_desc : D3D11_SAMPLER_DESC := { sampler_desc with AddressV :=
      D3D11_TEXTURE_ADDRESS_CLAMP }
  let sampler_desc : D3D11_SAMPLER_DESC := { sampler_desc with AddressW :=
      D3D11_TEXTURE_ADDRESS_CLAMP }
  let sampler_desc : D3D11_SAMPLER_DESC := { sampler_desc with Filter :=
      D3D11_FILTER_MIN_MAG_MIP_POINT }
  let r : Handle × List Event := deviceCreate device (Request.CreateSamplerState sampler_desc) t
  let self : StockObjectsD3D11 := { self with samplerPoint2DClamp := r.1 }
  let t : List Event := r.2
  let sampler_desc : D3D11_SAMPLER_DESC := { sampler_desc with Filter :=
      D3D11_FILTER_MIN_MAG_MIP_LINEAR }
  let r : Handle × List Event := deviceCreate device (Request.CreateSamplerState sampler_desc) t
  let self : StockObjectsD3D11 := { self with samplerLinear2DClamp := r.1 }
  let t : List Event := r.2
  (self, t)

/-- The call `p->Release()`: undefined through a null pointer (`none`),
otherwise one reference of the object is given up. -/
def comRelease (p : Handle) (t : List Event) : Option (List Event) :=
  if p = nullHandle then none else some (t ++ [Event.Release p])

/-- The method `StockObjectsD3D11::Destroy`.  No member is assigned, so the
catalog that comes back is the one that went in. -/
def StockObjectsD3D11.Destroy (self : StockObjectsD3D11) (t : List Event) :
    Option (StockObjectsD3D11 × List Event) := do
  let t ← (List.finRange 16).foldlM
    (fun (t : List Event) (i : Fin 16) => comRelease (self.blendStateDisabledWithColorMask i) t) t
  let t ← comRelease self.depthStencilDisabled t
  let t ← comRelease self.depthDisabledStencilWrite t
  let t ← comRelease self.rasterStateNoCull t
  let t ← comRelease self.samplerPoint2DWrap t
  let t ← comRelease self.samplerLinear2DWrap t
  let t ← comRelease self.samplerPoint2DClamp t
  let t ← comRelease self.samplerLinear2DClamp t
  pure (self, t)

/-! ## Observations on a trace -/

/-- The reference bookkeeping of one event: a creation that stores a non-null
pointer hands out one reference to it, a release gives one up. -/
def liveStep (live : List Handle) : Event → List Handle
  | Event.Create _ _ out => if out = nullHandle then live else live ++ [out]
  | Event.Release h => live.erase h
  | _ => live

/-- The references outstanding after a history (one occurrence per reference). -/
def liveHandles (t : List Event) : List Handle := t.foldl liveStep []

/-- The device calls of a history: request and pointer stored. -/
def creations (t : List Event) : List (Request × Handle) :=
  t.filterMap (fun e => match e with
    | Event.Create req _ out => some (req, out)
    | _ => none)

/-- The pointers released in a history, in order. -/
def releases (t : List Event) : List Handle :=
  t.filterMap (fun e => match e with
    | Event.Release h => some h
    | _ => none)

/-- The compiler calls of a history. -/
def compilations (t : List Event) : List D3DCompileArgs :=
  t.filterMap (fun e => match e with
    | Event.D3DCompile args _ => some args
    | _ => none)

/-- Every creation of the device succeeds: a succeeding status and a non-null
pointer. -/
def Succeeds (device : ID3D11Device) : Prop :=
  ∀ t req, SUCCEEDED (device t req).1 = true ∧ (device t req).2 ≠ nullHandle

/-- Every creation of the device stores a pointer to a new object: one that no
outstanding reference designates. -/
def Fresh (device : ID3D11Device) : Prop :=
  ∀ t req, (device t req).2 ∉ liveHandles t

/-- A device that always succeeds with a new object. -/
def freshDevice : ID3D11Device := fun t _ => (0, (liveHandles t).foldl max 0 + 1)

/-- A device out of memory: every creation fails with `E_OUTOFMEMORY` and
stores `nullptr`. -/
def failingDevice : ID3D11Device := fun _ _ => (-2147024882, nullHandle)

/-- A device that succeeds with one and the same object for every request. -/
def sharingDevice : ID3D11Device := fun _ _ => (0, 7)

/-- The sampler creations of a history: descriptor and pointer stored. -/
def samplerCreations (t : List Event) : List (D3D11_SAMPLER_DESC × Handle) :=
  (creations t).filterMap (fun c => match c.1 with
    | Request.CreateSamplerState desc => some (desc, c.2)
    | _ => none)

/-- The blend-state creations of a history: descriptor and pointer stored. -/
def blendCreations (t : List Event) : List (D3D11_BLEND_DESC × Handle) :=
  (creations t).filterMap (fun c => match c.1 with
    | Request.CreateBlendState desc => some (desc, c.2)
    | _ => none)

/-- The rasterizer-state creations of a history: descriptor and pointer stored. -/
def rasterizerCreations (t : List Event) : List (D3D11_RASTERIZER_DESC × Handle) :=
  (creations t).filterMap (fun c => match c.1 with
    | Request.CreateRasterizerState desc => some (desc, c.2)
    | _ => none)

/-- The depth-stencil creations of a history: descriptor and pointer stored. -/
def depthStencilCreations (t : List Event) : List (D3D11_DEPTH_STENCIL_DESC × Handle) :=
  (creations t).filterMap (fun c => match c.1 with
    | Request.CreateDepthStencilState desc => some (desc, c.2)
    | _ => none)

/-- A compiler answer without usable bytecode: no blob, or a blob of zero bytes. -/
def NoBytecode (answer : D3DCompileResult) : Prop :=
  answer.compiledCode = none ∨ answer.compiledCode = some []

/-- A compiler that rejects everything with `E_FAIL` and the diagnostic `blob`. -/
def rejectingCompiler (blob : List Byte) : Compiler :=
  fun _ _ => { result := -2147467259, compiledCode := none, errorMsgs := some blob }

/-- A compiler that accepts everything and answers the bytecode `blob`, with a
warning text. -/
def acceptingCompiler (blob : List Byte) : Compiler :=
  fun _ _ => { result := 0, compiledCode := some blob, errorMsgs := some [119] }

/-- A line-numbering utility for the sample runs: it leaves the text as it is. -/
def plainLines : List Byte → List Byte := fun code => code

/-- A run of creation calls for a fixed list of requests: the pointers stored
and the history afterwards. -/
def issue (device : ID3D11Device) : List Request → List Event → List Handle × List Event
  | [], t => ([], t)
  | req :: reqs, t =>
    ((deviceCreate device req t).1 :: (issue device reqs (deviceCreate device req t).2).1,
     (issue device reqs (deviceCreate device req t).2).2)

/-- The requests `StockObjectsD3D11::Create` makes, read off a run of it (they
do not depend on what the device answers, see `Create_trace`). -/
def stockRequests : List Request :=
  (creations (stockD3D11.Create failingDevice []).2).map Prod.fst

/-- The blend descriptor of the request number `m` of `stockRequests`. -/
def stockBlendDesc (m : Fin 16) : D3D11_BLEND_DESC :=
  match stockRequests[m.val]? with
  | some (Request.CreateBlendState desc) => desc
  | _ => D3D11_BLEND_DESC.zero

/-- The depth-stencil descriptor of the request number `k` of `stockRequests`. -/
def stockDepthStencilDesc (k : Nat) : D3D11_DEPTH_STENCIL_DESC :=
  match stockRequests[k]? with
  | some (Request.CreateDepthStencilState desc) => desc
  | _ => D3D11_DEPTH_STENCIL_DESC.zero

/-- The sampler descriptor of the request number `k` of `stockRequests`. -/
def stockSamplerDesc (k : Nat) : D3D11_SAMPLER_DESC :=
  match stockRequests[k]? with
  | some (Request.CreateSamplerState desc) => desc
  | _ => D3D11_SAMPLER_DESC.zero

/-- The states a catalog goes through under paired calls, starting from the
statically initialised one with an empty history: `Create` when it is not
populated, `Destroy` when it is.  The flag tells whether the last call was
`Create`. -/
inductive Reachable (device : ID3D11Device) : Bool → StockObjectsD3D11 → List Event → Prop where
  | init : Reachable device false stockD3D11 []
  | create (cat : StockObjectsD3D11) (t : List Event) :
      Reachable device false cat t →
      Reachable device true (cat.Create device t).1 (cat.Create device t).2
  | destroy (cat cat' : StockObjectsD3D11) (t t' : List Event) :
      Reachable device true cat t → cat.Destroy t = some (cat', t') →
      Reachable device false cat' t'

/-- The invariant of the specification on one state: every entry is null, or
designates an object that is created and not released and that no other entry
designates. -/
def CatalogInvariant (cat : StockObjectsD3D11) (t : List Event) : Prop :=
  ∀ h ∈ cat.entries, h = nullHandle ∨ (h ∈ liveHandles t ∧ cat.entries.count h = 1)

/-- The run `Create(device)` then `Destroy()` on the statically initialised
catalog with an empty history. -/
def createThenDestroy (device : ID3D11Device) : Option (StockObjectsD3D11 × List Event) :=
  (stockD3D11.Create device []).1.Destroy (stockD3D11.Create device []).2

/-- The catalog and the history after `Create` on the statically initialised
catalog, an empty history and a device that numbers its objects. -/
def populated : StockObjectsD3D11 × List Event := stockD3D11.Create freshDevice []

/-! ## Lemmas -/

theorem Create_trace (self : StockObjectsD3D11) (device : ID3D11Device) (t : List Event) :
    (self.Create device t).2 = (issue device stockRequests t).2 := by
  rfl

theorem Create_entries (self : StockObjectsD3D11) (device : ID3D11Device) (t : List Event) :
    (self.Create device t).1.entries = (issue device stockRequests t).1 := by
  rfl

theorem issue_spec (device : ID3D11Device) (reqs : List Request) :
    ∀ t : List Event, ∃ evs : List Event,
      (issue device reqs t).2 = t ++ evs ∧ evs.length = reqs.length ∧
      (issue device reqs t).1.length = reqs.length ∧
      creations evs = reqs.zip (issue device reqs t).1 ∧
      releases evs = [] ∧
      ∀ k req, reqs[k]? = some req →
        evs[k]? = some (Event.Create req (device (t ++ evs.take k) req).1
                          (device (t ++ evs.take k) req).2) ∧
        (issue device reqs t).1[k]? = some (device (t ++ evs.take k) req).2 := by
  induction reqs with
  | nil => intro t; exact ⟨[], by simp [issue, creations, releases]⟩
  | cons req reqs ih =>
    intro t
    obtain ⟨evs, h1, h2, h3, h4, h5, h6⟩ :=
      ih (t ++ [Event.Create req (device t req).1 (device t req).2])
    refine ⟨Event.Create req (device t req).1 (device t req).2 :: evs, ?_, ?_, ?_, ?_, ?_, ?_⟩
    · simp [issue, deviceCreate, h1]
    · simp [h2]
    · simp [issue, deviceCreate, h3]
    · simp only [creations] at h4 ⊢
      simp [issue, deviceCreate, h4]
    · simp only [releases] at h5 ⊢
      simp [h5]
    · intro k r hk
      cases k with
      | zero =>
        simp at hk
        subst hk
        simp [issue, deviceCreate]
      | succ k =>
        simp at hk
        have h7 := h6 k r hk
        simp at h7
        simp [issue, deviceCreate, h7]

theorem liveHandles_append (t evs : List Event) :
    liveHandles (t ++ evs) = evs.foldl liveStep (liveHandles t) := by
  simp [liveHandles, List.foldl_append]

theorem liveHandles_deviceCreate (device : ID3D11Device) (req : Request) (t : List Event)
    (h : (device t req).2 ≠ nullHandle) :
    liveHandles (deviceCreate device req t).2 = liveHandles t ++ [(device t req).2] := by
  simp [deviceCreate, liveHandles_append, liveStep, h]

theorem issue_nonnull (device : ID3D11Device)
    (hn : ∀ t req, (device t req).2 ≠ nullHandle) (reqs : List Request) :
    ∀ t : List Event, ∀ h ∈ (issue device reqs t).1, h ≠ nullHandle := by
  induction reqs with
  | nil => intro t h hh; simp [issue] at hh
  | cons req reqs ih =>
    intro t h hh
    simp only [issue, List.mem_cons] at hh
    rcases hh with hh | hh
    · rw [hh]; exact hn t req
    · exact ih _ h hh

theorem issue_live (device : ID3D11Device) (hs : Succeeds device) (reqs : List Request) :
    ∀ t : List Event,
      liveHandles (issue device reqs t).2 = liveHandles t ++ (issue device reqs t).1 := by
  induction reqs with
  | nil => intro t; simp [issue]
  | cons req reqs ih =>
    intro t
    simp only [issue]
    rw [ih, liveHandles_deviceCreate device req t (hs t req).2]
    simp [deviceCreate]

theorem issue_fresh (device : ID3D11Device) (hs : Succeeds device) (hf : Fresh device)
    (reqs : List Request) :
    ∀ t : List Event,
      (issue device reqs t).1.Nodup ∧ ∀ h ∈ (issue device reqs t).1, h ∉ liveHandles t := by
  induction reqs with
  | nil => intro t; simp [issue]
  | cons req reqs ih =>
    intro t
    obtain ⟨ih1, ih2⟩ := ih (deviceCreate device req t).2
    rw [liveHandles_deviceCreate device req t (hs t req).2] at ih2
    simp only [issue, List.nodup_cons, List.mem_cons]
    refine ⟨⟨?_, ih1⟩, ?_⟩
    · intro hmem
      have h3 := ih2 _ hmem
      simp [deviceCreate] at h3
    · intro h hh
      rcases hh with hh | hh
      · rw [hh]; exact hf t req
      · have h3 := ih2 _ hh
        intro hc
        exact h3 (List.mem_append_left _ hc)

theorem releaseAll_eq (hs : List Handle) :
    ∀ t : List Event, (∀ p ∈ hs, p ≠ nullHandle) →
      hs.foldlM (fun (t : List Event) (p : Handle) => comRelease p t) t =
        some (t ++ hs.map Event.Release) := by
  induction hs with
  | nil => intro t _; simp
  | cons p hs ih =>
    intro t hp
    have h1 : p ≠ nullHandle := hp p (List.mem_cons_self _ _)
    have h2 : ∀ q ∈ hs, q ≠ nullHandle := fun q hq => hp q (List.mem_cons_of_mem _ hq)
    have h3 : comRelease p t = some (t ++ [Event.Release p]) := by simp [comRelease, h1]
    rw [List.foldlM_cons, h3]
    simp only [Option.bind_eq_bind, Option.some_bind]
    rw [ih _ h2]
    simp

theorem releaseAll_some (hs : List Handle) :
    ∀ t t' : List Event,
      hs.foldlM (fun (t : List Event) (p : Handle) => comRelease p t) t = some t' →
        ∀ p ∈ hs, p ≠ nullHandle := by
  induction hs with
  | nil => intro t t' _ p hp; simp at hp
  | cons q hs ih =>
    intro t t' h p hp
    by_cases hq : q = nullHandle
    · simp [List.foldlM, comRelease, hq] at h
    · simp only [List.foldlM, comRelease, hq, if_false] at h
      rcases List.mem_cons.1 hp with hp | hp
      · rw [hp]; exact hq
      · exact ih _ _ h p hp

theorem Destroy_eq_releaseAll (self : StockObjectsD3D11) (t : List Event) :
    self.Destroy t =
      (self.entries.foldlM (fun (t : List Event) (p : Handle) => comRelease p t) t).map
        (fun t' => (self, t')) := by
  simp only [StockObjectsD3D11.Destroy, StockObjectsD3D11.entries, List.foldlM_append,
    List.foldlM_map, List.foldlM_cons, List.foldlM_nil, Option.map_eq_bind,
    Option.bind_eq_bind, Option.bind_assoc, Option.pure_def, Function.comp, Option.some_bind]

theorem Destroy_eq (self : StockObjectsD3D11) (t : List Event)
    (h : ∀ p ∈ self.entries, p ≠ nullHandle) :
    self.Destroy t = some (self, t ++ self.entries.map Event.Release) := by
  rw [Destroy_eq_releaseAll, releaseAll_eq _ _ h]
  rfl

theorem Destroy_some (self cat' : StockObjectsD3D11) (t t' : List Event)
    (h : self.Destroy t = some (cat', t')) :
    cat' = self ∧ t' = t ++ self.entries.map Event.Release ∧
      ∀ p ∈ self.entries, p ≠ nullHandle := by
  have hn : ∀ p ∈ self.entries, p ≠ nullHandle := by
    rw [Destroy_eq_releaseAll] at h
    cases hf : self.entries.foldlM (fun (t : List Event) (p : Handle) => comRelease p t) t with
    | none => rw [hf] at h; simp at h
    | some t1 => exact releaseAll_some _ _ _ hf
  rw [Destroy_eq self t hn] at h
  simp only [Option.some.injEq, Prod.mk.injEq] at h
  exact ⟨h.1.symm, h.2.symm, hn⟩

theorem foldl_liveStep_release (hs : List Handle) :
    ∀ live : List Handle, (hs.map Event.Release).foldl liveStep live = hs.foldl List.erase live :=
        by
  induction hs with
  | nil => intro live; rfl
  | cons h hs ih => intro live; simp [liveStep, ih]

theorem foldl_erase_append (hs : List Handle) :
    ∀ live : List Handle, hs.Nodup → (∀ h ∈ hs, h ∉ live) →
      hs.foldl List.erase (live ++ hs) = live := by
  induction hs with
  | nil => intro live _ _; simp
  | cons h hs ih =>
    intro live hnd hdis
    have h1 : h ∉ live := hdis h (List.mem_cons_self _ _)
    have h2 : (live ++ h :: hs).erase h = live ++ hs := by
      rw [List.erase_append_right _ h1, List.erase_cons_head]
    rw [List.foldl_cons, h2]
    exact ih live (List.nodup_cons.1 hnd).2 (fun x hx => hdis x (List.mem_cons_of_mem _ hx))

theorem liveHandles_release (t : List Event) (hs : List Handle) :
    liveHandles (t ++ hs.map Event.Release) = hs.foldl List.erase (liveHandles t) := by
  rw [liveHandles_append, foldl_liveStep_release]

theorem releases_append_release (t : List Event) (hs : List Handle) :
    releases (t ++ hs.map Event.Release) = releases t ++ hs := by
  have h : ∀ l : List Handle, releases (l.map Event.Release) = l := by
    intro l
    induction l with
    | nil => rfl
    | cons a l ih => simp only [releases] at ih ⊢; simp [ih]
  have h2 : releases (t ++ hs.map Event.Release) =
      releases t ++ releases (hs.map Event.Release) := by
    simp [releases]
  rw [h2, h]

theorem le_foldl_max (l : List Nat) :
    ∀ a : Nat, a ≤ l.foldl max a ∧ ∀ x ∈ l, x ≤ l.foldl max a := by
  induction l with
  | nil => intro a; simp
  | cons b l ih =>
    intro a
    obtain ⟨h1, h2⟩ := ih (max a b)
    refine ⟨le_trans (le_max_left a b) h1, ?_⟩
    intro x hx
    rcases List.mem_cons.1 hx with hx | hx
    · rw [hx]; exact le_trans (le_max_right a b) h1
    · exact h2 x hx

theorem freshDevice_succeeds : Succeeds freshDevice := by
  intro t req
  exact ⟨rfl, Nat.succ_ne_zero _⟩

theorem freshDevice_fresh : Fresh freshDevice := by
  intro t req hmem
  have h := (le_foldl_max (liveHandles t) 0).2 _ hmem
  simp [freshDevice] at h

theorem stockRequests_length : stockRequests.length = 23 := by decide

theorem Create_spec (self : StockObjectsD3D11) (device : ID3D11Device) (t : List Event) :
    ∃ evs : List Event,
      (self.Create device t).2 = t ++ evs ∧ evs.length = 23 ∧
      (self.Create device t).1.entries.length = 23 ∧
      creations evs = stockRequests.zip (self.Create device t).1.entries ∧
      releases evs = [] ∧
      ∀ k req, stockRequests[k]? = some req →
        evs[k]? = some (Event.Create req (device (t ++ evs.take k) req).1
                          (device (t ++ evs.take k) req).2) ∧
        (self.Create device t).1.entries[k]? = some (device (t ++ evs.take k) req).2 := by
  obtain ⟨evs, h1, h2, h3, h4, h5, h6⟩ := issue_spec device stockRequests t
  rw [stockRequests_length] at h2 h3
  exact ⟨evs, by rw [Create_trace, h1], h2, by rw [Create_entries, h3],
    by rw [Create_entries, h4], h5, by rw [Create_entries]; exact h6⟩

theorem creations_append (t evs : List Event) :
    creations (t ++ evs) = creations t ++ creations evs := by
  simp [creations]

theorem creations_release (hs : List Handle) : creations (hs.map Event.Release) = [] := by
  induction hs with
  | nil => rfl
  | cons a l ih => simp only [creations] at ih ⊢; simp [ih]

theorem Create_entries_eq_stored (self : StockObjectsD3D11) (device : ID3D11Device)
    (t evs : List Event)
    (h3 : (self.Create device t).1.entries.length = 23)
    (h4 : creations evs = stockRequests.zip (self.Create device t).1.entries) :
    (creations evs).length = 23 ∧
      (self.Create device t).1.entries = (creations evs).map Prod.snd := by
  constructor
  · rw [h4, List.length_zip, stockRequests_length, h3]; rfl
  · rw [h4, List.map_snd_zip]
    rw [stockRequests_length, h3]

/-! ## The stock-object catalog -/

theorem entries_getElem_blend (self : StockObjectsD3D11) (m : Fin 16) :
    self.entries[m.val]? = some (self.blendStateDisabledWithColorMask m) := by
  fin_cases m <;> rfl

theorem stockRequests_blend (m : Fin 16) :
    stockRequests[m.val]? = some (Request.CreateBlendState (stockBlendDesc m)) := by
  revert m
  decide

theorem stockBlendDesc_fields (m : Fin 16) :
    (stockBlendDesc m).RenderTarget[0]?.map (fun rt => rt.BlendEnable) = some false ∧
    (stockBlendDesc m).IndependentBlendEnable = false ∧
    (stockBlendDesc m).RenderTarget[0]?.map (fun rt => rt.RenderTargetWriteMask) = some m.val := by
  revert m
  decide

theorem stockBlendDesc_injective : Function.Injective stockBlendDesc := by
  intro m n
  revert m n
  decide

/-- C1: for every device and every write mask m in 0..15, the m-th call of
`Create` is a blend-state creation whose descriptor has blending off on render
target 0, independent blending off and write mask m; the 16 descriptors are
pairwise different; entry m holds the pointer the device stored for that call;
and the 16 entries are pairwise different when every creation succeeds with a
new object. -/
theorem Create_blend_states (self : StockObjectsD3D11) (device : ID3D11Device)
    (t : List Event) :
    (∃ evs : List Event, (self.Create device t).2 = t ++ evs ∧
      ∃ descs : Fin 16 → D3D11_BLEND_DESC, Function.Injective descs ∧
        ∀ m : Fin 16,
          (descs m).RenderTarget[0]?.map (fun rt => rt.BlendEnable) = some false ∧
          (descs m).IndependentBlendEnable = false ∧
          (descs m).RenderTarget[0]?.map (fun rt => rt.RenderTargetWriteMask) = some m.val ∧
          evs[m.val]? = some (Event.Create (Request.CreateBlendState (descs m))
            (device (t ++ evs.take m.val) (Request.CreateBlendState (descs m))).1
            (device (t ++ evs.take m.val) (Request.CreateBlendState (descs m))).2) ∧
          (self.Create device t).1.blendStateDisabledWithColorMask m =
            (device (t ++ evs.take m.val) (Request.CreateBlendState (descs m))).2) ∧
    (Succeeds device → Fresh device →
      Function.Injective (self.Create device t).1.blendStateDisabledWithColorMask) := by
  constructor
  · obtain ⟨evs, h1, _, _, _, _, h6⟩ := Create_spec self device t
    refine ⟨evs, h1, stockBlendDesc, stockBlendDesc_injective, ?_⟩
    intro m
    obtain ⟨f1, f2, f3⟩ := stockBlendDesc_fields m
    obtain ⟨g1, g2⟩ := h6 m.val _ (stockRequests_blend m)
    refine ⟨f1, f2, f3, g1, ?_⟩
    rw [entries_getElem_blend] at g2
    exact Option.some.inj g2
  · intro hs hf m n hmn
    have hnd := (issue_fresh device hs hf stockRequests t).1
    rw [← Create_entries self device t] at hnd
    have hlen : (self.Create device t).1.entries.length = 23 := by
      rw [Create_entries]
      obtain ⟨_, _, _, h3, _⟩ := issue_spec device stockRequests t
      rw [h3, stockRequests_length]
    have hm : m.val < (self.Create device t).1.entries.length := by
      rw [hlen]; exact lt_trans m.isLt (by decide)
    have heq : (self.Create device t).1.entries[m.val]? =
        (self.Create device t).1.entries[n.val]? := by
      rw [entries_getElem_blend, entries_getElem_blend, hmn]
    exact Fin.ext (List.getElem?_inj hm hnd heq)

/-- The distinctness of C1 on the statically initialised catalog and a device
that numbers its objects. -/
theorem Create_blend_states_witness :
    Succeeds freshDevice ∧ Fresh freshDevice ∧
    Function.Injective populated.1.blendStateDisabledWithColorMask :=
  ⟨freshDevice_succeeds, freshDevice_fresh,
    (Create_blend_states stockD3D11 freshDevice []).2 freshDevice_succeeds freshDevice_fresh⟩

/-- C2: for every device, `Create` makes two depth-stencil creations.  The first
fills `depthStencilDisabled` from a descriptor with depth and stencil off and
none of the later assignments in it; the second fills
`depthDisabledStencilWrite` from a descriptor with depth off, stencil on, read
and write masks 0xFF, and on both faces the three operations REPLACE and the
comparison ALWAYS. -/
theorem Create_depth_stencil_states (self : StockObjectsD3D11) (device : ID3D11Device)
    (t : List Event) :
    ∃ evs : List Event, (self.Create device t).2 = t ++ evs ∧
      ∃ first second : D3D11_DEPTH_STENCIL_DESC,
        depthStencilCreations evs =
          [(first, (self.Create device t).1.depthStencilDisabled),
           (second, (self.Create device t).1.depthDisabledStencilWrite)] ∧
        first.DepthEnable = false ∧ first.StencilEnable = false ∧
        first.StencilReadMask = 0 ∧ first.StencilWriteMask = 0 ∧
        first.FrontFace = D3D11_DEPTH_STENCILOP_DESC.zero ∧
        first.BackFace = D3D11_DEPTH_STENCILOP_DESC.zero ∧
        second.DepthEnable = false ∧ second.StencilEnable = true ∧
        second.StencilReadMask = 0xFF ∧ second.StencilWriteMask = 0xFF ∧
        second.FrontFace.StencilPassOp = D3D11_STENCIL_OP_REPLACE ∧
        second.FrontFace.StencilFailOp = D3D11_STENCIL_OP_REPLACE ∧
        second.FrontFace.StencilDepthFailOp = D3D11_STENCIL_OP_REPLACE ∧
        second.FrontFace.StencilFunc = D3D11_COMPARISON_ALWAYS ∧
        second.BackFace.StencilPassOp = D3D11_STENCIL_OP_REPLACE ∧
        second.BackFace.StencilFailOp = D3D11_STENCIL_OP_REPLACE ∧
        second.BackFace.StencilDepthFailOp = D3D11_STENCIL_OP_REPLACE ∧
        second.BackFace.StencilFunc = D3D11_COMPARISON_ALWAYS := by
  obtain ⟨evs, h1, _, _, h4, _, _⟩ := Create_spec self device t
  refine ⟨evs, h1, stockDepthStencilDesc 16, stockDepthStencilDesc 17, ?_, ?_⟩
  · simp only [depthStencilCreations]
    rw [h4]
    rfl
  · decide

/-- C3: for every device, `Create` makes exactly four sampler creations, in the
order point/wrap, linear/wrap, point/clamp, linear/clamp; each fills the entry
of that name from a descriptor with that filter and that addressing on U, V
and W; the four descriptors are pairwise different. -/
theorem Create_sampler_states (self : StockObjectsD3D11) (device : ID3D11Device)
    (t : List Event) :
    ∃ evs : List Event, (self.Create device t).2 = t ++ evs ∧
      ∃ pw lw pc lc : D3D11_SAMPLER_DESC,
        samplerCreations evs =
          [(pw, (self.Create device t).1.samplerPoint2DWrap),
           (lw, (self.Create device t).1.samplerLinear2DWrap),
           (pc, (self.Create device t).1.samplerPoint2DClamp),
           (lc, (self.Create device t).1.samplerLinear2DClamp)] ∧
        [pw, lw, pc, lc].Nodup ∧
        pw.Filter = D3D11_FILTER_MIN_MAG_MIP_POINT ∧
        pw.AddressU = D3D11_TEXTURE_ADDRESS_WRAP ∧ pw.AddressV = D3D11_TEXTURE_ADDRESS_WRAP ∧
        pw.AddressW = D3D11_TEXTURE_ADDRESS_WRAP ∧
        lw.Filter = D3D11_FILTER_MIN_MAG_MIP_LINEAR ∧
        lw.AddressU = D3D11_TEXTURE_ADDRESS_WRAP ∧ lw.AddressV = D3D11_TEXTURE_ADDRESS_WRAP ∧
        lw.AddressW = D3D11_TEXTURE_ADDRESS_WRAP ∧
        pc.Filter = D3D11_FILTER_MIN_MAG_MIP_POINT ∧
        pc.AddressU = D3D11_TEXTURE_ADDRESS_CLAMP ∧ pc.AddressV = D3D11_TEXTURE_ADDRESS_CLAMP ∧
        pc.AddressW = D3D11_TEXTURE_ADDRESS_CLAMP ∧
        lc.Filter = D3D11_FILTER_MIN_MAG_MIP_LINEAR ∧
        lc.AddressU = D3D11_TEXTURE_ADDRESS_CLAMP ∧ lc.AddressV = D3D11_TEXTURE_ADDRESS_CLAMP ∧
        lc.AddressW = D3D11_TEXTURE_ADDRESS_CLAMP := by
  obtain ⟨evs, h1, _, _, h4, _, _⟩ := Create_spec self device t
  refine ⟨evs, h1, stockSamplerDesc 19, stockSamplerDesc 20, stockSamplerDesc 21,
    stockSamplerDesc 22, ?_, ?_⟩
  · simp only [samplerCreations]
    rw [h4]
    rfl
  · decide

/-- C4: on a device whose creations all succeed with a new object, `Create`
followed at once by `Destroy` makes exactly 23 creations (16 blend, 2 depth-stencil, 1
rasterizer, 4 sampler) and then exactly 23 releases; the pointers released are the pointers
    created, in the same order
and without repetition, and the references outstanding afterwards are those
outstanding before. -/
theorem Create_then_Destroy_releases_each_once (self : StockObjectsD3D11)
    (device : ID3D11Device) (t : List Event) (hs : Succeeds device) (hf : Fresh device) :
    ∃ (made : List Event) (handles : List Handle),
      (self.Create device t).2 = t ++ made ∧
      (self.Create device t).1.Destroy (self.Create device t).2 =
        some ((self.Create device t).1, t ++ made ++ handles.map Event.Release) ∧
      made.length = 23 ∧ (creations made).length = 23 ∧ releases made = [] ∧
      (blendCreations made).length = 16 ∧ (depthStencilCreations made).length = 2 ∧
      (rasterizerCreations made).length = 1 ∧ (samplerCreations made).length = 4 ∧
      handles = (creations made).map Prod.snd ∧
      handles.length = 23 ∧ handles.Nodup ∧
      releases (made ++ handles.map Event.Release) = handles ∧
      creations (made ++ handles.map Event.Release) = creations made ∧
      liveHandles (t ++ made ++ handles.map Event.Release) = liveHandles t := by
  obtain ⟨evs, h1, h2, h3, h4, h5, _⟩ := Create_spec self device t
  obtain ⟨h7, h8⟩ := Create_entries_eq_stored self device t evs h3 h4
  have hnn : ∀ p ∈ (self.Create device t).1.entries, p ≠ nullHandle := by
    rw [Create_entries]
    exact issue_nonnull device (fun t req => (hs t req).2) stockRequests t
  have hfr := issue_fresh device hs hf stockRequests t
  rw [← Create_entries self device t] at hfr
  have hlive := issue_live device hs stockRequests t
  rw [← Create_entries self device t, ← Create_trace self device t, h1] at hlive
  refine ⟨evs, (self.Create device t).1.entries, h1, ?_, h2, h7, h5, ?_, ?_, ?_, ?_, h8, h3,
    hfr.1, ?_, ?_, ?_⟩
  · rw [Destroy_eq _ _ hnn, h1]
  · simp only [blendCreations]; rw [h4]; rfl
  · simp only [depthStencilCreations]; rw [h4]; rfl
  · simp only [rasterizerCreations]; rw [h4]; rfl
  · simp only [samplerCreations]; rw [h4]; rfl
  · rw [releases_append_release, h5]; rfl
  · rw [creations_append, creations_release]; simp
  · rw [liveHandles_release, hlive]
    exact foldl_erase_append _ _ hfr.1 hfr.2

/-- The lifecycle of C4 on the statically initialised catalog and a device that
numbers its objects. -/
theorem Create_then_Destroy_releases_each_once_witness :
    Succeeds freshDevice ∧ Fresh freshDevice ∧
    ∃ (made : List Event) (handles : List Handle),
      populated.2 = [] ++ made ∧
      populated.1.Destroy populated.2 =
        some (populated.1, [] ++ made ++ handles.map Event.Release) ∧
      made.length = 23 ∧ (creations made).length = 23 ∧ releases made = [] ∧
      (blendCreations made).length = 16 ∧ (depthStencilCreations made).length = 2 ∧
      (rasterizerCreations made).length = 1 ∧ (samplerCreations made).length = 4 ∧
      handles = (creations made).map Prod.snd ∧
      handles.length = 23 ∧ handles.Nodup ∧
      releases (made ++ handles.map Event.Release) = handles ∧
      creations (made ++ handles.map Event.Release) = creations made ∧
      liveHandles ([] ++ made ++ handles.map Event.Release) = liveHandles [] :=
  ⟨freshDevice_succeeds, freshDevice_fresh,
    Create_then_Destroy_releases_each_once stockD3D11 freshDevice []
      freshDevice_succeeds freshDevice_fresh⟩

/-- C8, as the code has it: `Create` checks no status and has no failure path.
For every device, failing or not, it returns after exactly 23 creation calls;
call number k carries the status and the pointer the device answers at that
point of the history, and entry number k holds that pointer, null included.
Hence all 23 entries are non-null when every creation succeeds. -/
theorem Create_stores_every_device_answer (self : StockObjectsD3D11)
    (device : ID3D11Device) (t : List Event) :
    (∃ made : List Event,
      (self.Create device t).2 = t ++ made ∧ made.length = 23 ∧
      (creations made).length = 23 ∧
      (self.Create device t).1.entries = (creations made).map Prod.snd ∧
      (self.Create device t).1.entries.length = 23 ∧
      ∀ k, k < 23 → ∃ req : Request,
        made[k]? = some (Event.Create req (device (t ++ made.take k) req).1
                          (device (t ++ made.take k) req).2) ∧
        (self.Create device t).1.entries[k]? = some (device (t ++ made.take k) req).2) ∧
    (Succeeds device → ∀ h ∈ (self.Create device t).1.entries, h ≠ nullHandle) := by
  constructor
  · obtain ⟨evs, h1, h2, h3, h4, _, h6⟩ := Create_spec self device t
    obtain ⟨h7, h8⟩ := Create_entries_eq_stored self device t evs h3 h4
    refine ⟨evs, h1, h2, h7, h8, h3, ?_⟩
    intro k hk
    have hk' : k < stockRequests.length := by rw [stockRequests_length]; exact hk
    exact ⟨stockRequests[k], h6 k _ (List.getElem?_eq_getElem hk')⟩
  · intro hs
    rw [Create_entries]
    exact issue_nonnull device (fun t req => (hs t req).2) stockRequests t

/-- The population of C8 on the statically initialised catalog and a device
that numbers its objects. -/
theorem Create_stores_every_device_answer_witness :
    Succeeds freshDevice ∧ ∀ h ∈ populated.1.entries, h ≠ nullHandle :=
  ⟨freshDevice_succeeds,
    (Create_stores_every_device_answer stockD3D11 freshDevice []).2 freshDevice_succeeds⟩

/-- C8 fails on a device that is out of memory: every one of the 23 creations
answers a failing status and a null pointer, and `Create` still returns, with
all 23 entries null. -/
theorem Create_returns_with_null_entries_on_failure :
    (stockD3D11.Create failingDevice []).1.entries = List.replicate 23 nullHandle ∧
    (stockD3D11.Create failingDevice []).2.length = 23 ∧
    (stockD3D11.Create failingDevice []).2.all
      (fun e => match e with
        | Event.Create _ status out => !SUCCEEDED status && decide (out = nullHandle)
        | _ => false) = true := by
  decide

/-- C9, as the code has it: under paired calls on a device whose creations all
succeed with a new object, after `Create` every entry is non-null, designates
an object created and not released, and shares it with no other entry, and
`Destroy` is defined there; after `Destroy` no reference is outstanding, and
the entries, which `Destroy` does not reset, still hold the released pointers
(they are all null only before the first `Create`). -/
theorem Reachable_catalog_states (device : ID3D11Device) (hs : Succeeds device)
    (hf : Fresh device) (b : Bool) (cat : StockObjectsD3D11) (t : List Event)
    (hr : Reachable device b cat t) :
    (b = true →
        CatalogInvariant cat t ∧ (∀ h ∈ cat.entries, h ≠ nullHandle) ∧ cat.entries.Nodup ∧
        liveHandles t = cat.entries ∧
        cat.Destroy t = some (cat, t ++ cat.entries.map Event.Release)) ∧
      (b = false →
        liveHandles t = [] ∧
        ((t = [] ∧ ∀ h ∈ cat.entries, h = nullHandle) ∨
          (∀ h ∈ cat.entries, h ≠ nullHandle ∧ h ∈ releases t ∧ h ∉ liveHandles t))) := by
  induction hr with
  | init =>
    refine ⟨fun h => by simp at h, fun _ => ⟨rfl, Or.inl ⟨rfl, ?_⟩⟩⟩
    decide
  | create cat t _ ih =>
    refine ⟨fun _ => ?_, fun h => by simp at h⟩
    have hl : liveHandles t = [] := (ih.2 rfl).1
    have hnn : ∀ p ∈ (cat.Create device t).1.entries, p ≠ nullHandle := by
      rw [Create_entries]
      exact issue_nonnull device (fun t req => (hs t req).2) stockRequests t
    have hfr := issue_fresh device hs hf stockRequests t
    rw [← Create_entries cat device t] at hfr
    have hlive := issue_live device hs stockRequests t
    rw [← Create_entries cat device t, ← Create_trace cat device t, hl, List.nil_append] at hlive
    refine ⟨?_, hnn, hfr.1, hlive, Destroy_eq _ _ hnn⟩
    intro h hh
    exact Or.inr ⟨by rw [hlive]; exact hh, List.count_eq_one_of_mem hfr.1 hh⟩
  | destroy cat cat' t t' _ hd ih =>
    refine ⟨fun h => by simp at h, fun _ => ?_⟩
    obtain ⟨_, hnn, hnd, hlive, _⟩ := ih.1 rfl
    obtain ⟨hc, ht, _⟩ := Destroy_some cat cat' t t' hd
    subst hc
    subst ht
    have hl : liveHandles (t ++ cat'.entries.map Event.Release) = [] := by
      rw [liveHandles_release, hlive]
      have := foldl_erase_append cat'.entries [] hnd (fun _ _ => List.not_mem_nil _)
      simpa using this
    refine ⟨hl, Or.inr ?_⟩
    intro h hh
    refine ⟨hnn h hh, ?_, ?_⟩
    · rw [releases_append_release]
      exact List.mem_append_right _ hh
    · rw [hl]
      exact List.not_mem_nil _

/-- The state after the first `Create` of C9, on a device that numbers its
objects. -/
theorem Reachable_catalog_states_witness :
    Succeeds freshDevice ∧ Fresh freshDevice ∧
    Reachable freshDevice true populated.1 populated.2 ∧
    ((true = true →
        CatalogInvariant populated.1 populated.2 ∧
        (∀ h ∈ populated.1.entries, h ≠ nullHandle) ∧ populated.1.entries.Nodup ∧
        liveHandles populated.2 = populated.1.entries ∧
        populated.1.Destroy populated.2 =
          some (populated.1, populated.2 ++ populated.1.entries.map Event.Release)) ∧
      (true = false →
        liveHandles populated.2 = [] ∧
        ((populated.2 = [] ∧ ∀ h ∈ populated.1.entries, h = nullHandle) ∨
          (∀ h ∈ populated.1.entries,
            h ≠ nullHandle ∧ h ∈ releases populated.2 ∧ h ∉ liveHandles populated.2)))) :=
  ⟨freshDevice_succeeds, freshDevice_fresh, Reachable.create stockD3D11 [] Reachable.init,
    Reachable_catalog_states freshDevice freshDevice_succeeds freshDevice_fresh true
      populated.1 populated.2 (Reachable.create stockD3D11 [] Reachable.init)⟩

/-- C9 fails after `Create` then `Destroy` on a device that numbers its objects
1 to 23: `Destroy` is defined, no reference is outstanding afterwards, and the
23 entries still hold the released pointers 1 to 23, none of them null.  It
also fails right after `Create` on a device that succeeds with one and the same
object every time: all 23 entries designate it. -/
theorem Destroy_leaves_released_pointers :
    (createThenDestroy freshDevice).map (fun r => (r.1.entries, liveHandles r.2, releases r.2)) =
      some ([1, 2, 3, 4, 5, 6, 7, 8, 9, 10, 11, 12, 13, 14, 15, 16, 17, 18, 19, 20, 21, 22, 23],
            [],
            [1, 2, 3, 4, 5, 6, 7, 8, 9, 10, 11, 12, 13, 14, 15, 16, 17, 18, 19, 20, 21, 22, 23]) ∧
    (∀ req, SUCCEEDED (sharingDevice [] req).1 = true ∧ (sharingDevice [] req).2 = 7) ∧
    (stockD3D11.Create sharingDevice []).1.entries = List.replicate 23 7 := by
  refine ⟨?_, ?_, ?_⟩
  · decide
  · intro req; exact ⟨rfl, rfl⟩
  · decide

/-! ## Shader creation -/

theorem CompileShaderToBytecode_fst (c : Compiler) (l : List Byte → List Byte)
    (code : List Byte) (n : Nat) (target : String) (flags : Nat) (t : List Event) :
    (CompileShaderToBytecode c l code n target flags t).1 =
      (c t (compileArgs code n target flags)).compiledCode.getD [] := by
  simp only [CompileShaderToBytecode]
  generalize c t (compileArgs code n target flags) = a
  rcases a with ⟨r, _ | cc, _ | em⟩ <;> rfl

theorem CompileShaderToBytecode_creations (c : Compiler) (l : List Byte → List Byte)
    (code : List Byte) (n : Nat) (target : String) (flags : Nat) (t : List Event) :
    creations (CompileShaderToBytecode c l code n target flags t).2 = creations t := by
  simp only [CompileShaderToBytecode]
  generalize c t (compileArgs code n target flags) = a
  rcases a with ⟨r, _ | cc, _ | em⟩ <;> simp [creations]

theorem CompileShaderToBytecode_compilations (c : Compiler) (l : List Byte → List Byte)
    (code : List Byte) (n : Nat) (target : String) (flags : Nat) (t : List Event) :
    compilations (CompileShaderToBytecode c l code n target flags t).2 =
      compilations t ++ [compileArgs code n target flags] := by
  simp only [CompileShaderToBytecode]
  generalize c t (compileArgs code n target flags) = a
  rcases a with ⟨r, _ | cc, _ | em⟩ <;> simp [compilations]

theorem CreateVertexShaderD3D11_eq (c : Compiler) (l : List Byte → List Byte)
    (device : ID3D11Device) (code : List Byte) (n : Nat) (byteCodeOut : Option (List Byte))
    (flags : Nat) (t : List Event) :
    CreateVertexShaderD3D11 c l device code n byteCodeOut flags t =
      if (CompileShaderToBytecode c l code n "vs_5_0" flags t).1.isEmpty then
        (nullHandle, byteCodeOut, (CompileShaderToBytecode c l code n "vs_5_0" flags t).2)
      else
        ((deviceCreate device
            (Request.CreateVertexShader (CompileShaderToBytecode c l code n "vs_5_0" flags t).1
              (CompileShaderToBytecode c l code n "vs_5_0" flags t).1.length)
            (CompileShaderToBytecode c l code n "vs_5_0" flags t).2).1,
         byteCodeOut.map (fun _ => (CompileShaderToBytecode c l code n "vs_5_0" flags t).1),
         (deviceCreate device
            (Request.CreateVertexShader (CompileShaderToBytecode c l code n "vs_5_0" flags t).1
              (CompileShaderToBytecode c l code n "vs_5_0" flags t).1.length)
            (CompileShaderToBytecode c l code n "vs_5_0" flags t).2).2) := by
  cases byteCodeOut <;> rfl

theorem CreatePixelShaderD3D11_eq (c : Compiler) (l : List Byte → List Byte)
    (device : ID3D11Device) (code : List Byte) (n : Nat) (flags : Nat) (t : List Event) :
    CreatePixelShaderD3D11 c l device code n flags t =
      if (CompileShaderToBytecode c l code n "ps_5_0" flags t).1.isEmpty then
        (nullHandle, (CompileShaderToBytecode c l code n "ps_5_0" flags t).2)
      else
        deviceCreate device
          (Request.CreatePixelShader (CompileShaderToBytecode c l code n "ps_5_0" flags t).1
            (CompileShaderToBytecode c l code n "ps_5_0" flags t).1.length)
          (CompileShaderToBytecode c l code n "ps_5_0" flags t).2 := by
  rfl

theorem CreateComputeShaderD3D11_eq (c : Compiler) (l : List Byte → List Byte)
    (device : ID3D11Device) (code : List Byte) (n : Nat) (flags : Nat) (t : List Event) :
    CreateComputeShaderD3D11 c l device code n flags t =
      if (CompileShaderToBytecode c l code n "cs_5_0" flags t).1.isEmpty then
        (nullHandle, (CompileShaderToBytecode c l code n "cs_5_0" flags t).2)
      else
        deviceCreate device
          (Request.CreateComputeShader (CompileShaderToBytecode c l code n "cs_5_0" flags t).1
            (CompileShaderToBytecode c l code n "cs_5_0" flags t).1.length)
          (CompileShaderToBytecode c l code n "cs_5_0" flags t).2 := by
  rfl

theorem CreateGeometryShaderD3D11_eq (c : Compiler) (l : List Byte → List Byte)
    (device : ID3D11Device) (code : List Byte) (n : Nat) (flags : Nat) (t : List Event) :
    CreateGeometryShaderD3D11 c l device code n flags t =
      if (CompileShaderToBytecode c l code n "gs_5_0" flags t).1.isEmpty then
        (nullHandle, (CompileShaderToBytecode c l code n "gs_5_0" flags t).2)
      else
        deviceCreate device
          (Request.CreateGeometryShader (CompileShaderToBytecode c l code n "gs_5_0" flags t).1
            (CompileShaderToBytecode c l code n "gs_5_0" flags t).1.length)
          (CompileShaderToBytecode c l code n "gs_5_0" flags t).2 := by
  rfl

theorem compilations_deviceCreate (device : ID3D11Device) (req : Request) (t : List Event) :
    compilations (deviceCreate device req t).2 = compilations t := by
  simp [deviceCreate, compilations]

theorem creations_deviceCreate (device : ID3D11Device) (req : Request) (t : List Event) :
    creations (deviceCreate device req t).2 =
      creations t ++ [(req, (deviceCreate device req t).1)] := by
  simp [deviceCreate, creations]

theorem noBytecode_isEmpty (c : Compiler) (l : List Byte → List Byte)
    (code : List Byte) (n : Nat) (target : String) (flags : Nat) (t : List Event)
    (h : NoBytecode (c t (compileArgs code n target flags))) :
    (CompileShaderToBytecode c l code n target flags t).1.isEmpty = true := by
  rw [CompileShaderToBytecode_fst]
  rcases h with h | h <;> rw [h] <;> rfl

/-- C5: for each of the four functions, when the compiler's answer holds no
bytecode blob or a blob of zero bytes, the function returns the null pointer
and the device receives no creation call (and the vertex function leaves
`*byteCodeOut` as it was). -/
theorem Create_shader_null_without_bytecode (c : Compiler) (l : List Byte → List Byte)
    (device : ID3D11Device) (code : List Byte) (n : Nat) (flags : Nat) (t : List Event)
    (byteCodeOut : Option (List Byte)) :
    (NoBytecode (c t (compileArgs code n "vs_5_0" flags)) →
      (CreateVertexShaderD3D11 c l device code n byteCodeOut flags t).1 = nullHandle ∧
      (CreateVertexShaderD3D11 c l device code n byteCodeOut flags t).2.1 = byteCodeOut ∧
      creations (CreateVertexShaderD3D11 c l device code n byteCodeOut flags t).2.2 = creations t) ∧
    (NoBytecode (c t (compileArgs code n "ps_5_0" flags)) →
      (CreatePixelShaderD3D11 c l device code n flags t).1 = nullHandle ∧
      creations (CreatePixelShaderD3D11 c l device code n flags t).2 = creations t) ∧
    (NoBytecode (c t (compileArgs code n "cs_5_0" flags)) →
      (CreateComputeShaderD3D11 c l device code n flags t).1 = nullHandle ∧
      creations (CreateComputeShaderD3D11 c l device code n flags t).2 = creations t) ∧
    (NoBytecode (c t (compileArgs code n "gs_5_0" flags)) →
      (CreateGeometryShaderD3D11 c l device code n flags t).1 = nullHandle ∧
      creations (CreateGeometryShaderD3D11 c l device code n flags t).2 = creations t) := by
  refine ⟨fun h => ?_, fun h => ?_, fun h => ?_, fun h => ?_⟩
  · rw [CreateVertexShaderD3D11_eq, if_pos (noBytecode_isEmpty c l code n _ flags t h)]
    exact ⟨rfl, rfl, CompileShaderToBytecode_creations _ _ _ _ _ _ _⟩
  · rw [CreatePixelShaderD3D11_eq, if_pos (noBytecode_isEmpty c l code n _ flags t h)]
    exact ⟨rfl, CompileShaderToBytecode_creations _ _ _ _ _ _ _⟩
  · rw [CreateComputeShaderD3D11_eq, if_pos (noBytecode_isEmpty c l code n _ flags t h)]
    exact ⟨rfl, CompileShaderToBytecode_creations _ _ _ _ _ _ _⟩
  · rw [CreateGeometryShaderD3D11_eq, if_pos (noBytecode_isEmpty c l code n _ flags t h)]
    exact ⟨rfl, CompileShaderToBytecode_creations _ _ _ _ _ _ _⟩

/-- The four functions of C5 on a compiler that answers no bytecode. -/
theorem Create_shader_null_without_bytecode_witness :
    (NoBytecode ((rejectingCompiler [101]) [] (compileArgs [104] 1 "vs_5_0" 0)) ∧
      (CreateVertexShaderD3D11 (rejectingCompiler [101]) plainLines freshDevice
        [104] 1 (some [1, 2]) 0 []).1 = nullHandle ∧
      (CreateVertexShaderD3D11 (rejectingCompiler [101]) plainLines freshDevice
        [104] 1 (some [1, 2]) 0 []).2.1 = some [1, 2] ∧
      creations (CreateVertexShaderD3D11 (rejectingCompiler [101]) plainLines freshDevice
        [104] 1 (some [1, 2]) 0 []).2.2 = creations []) ∧
    (NoBytecode ((rejectingCompiler [101]) [] (compileArgs [104] 1 "ps_5_0" 0)) ∧
      (CreatePixelShaderD3D11 (rejectingCompiler [101]) plainLines freshDevice
        [104] 1 0 []).1 = nullHandle ∧
      creations (CreatePixelShaderD3D11 (rejectingCompiler [101]) plainLines freshDevice
        [104] 1 0 []).2 = creations []) ∧
    (NoBytecode ((rejectingCompiler [101]) [] (compileArgs [104] 1 "cs_5_0" 0)) ∧
      (CreateComputeShaderD3D11 (rejectingCompiler [101]) plainLines freshDevice
        [104] 1 0 []).1 = nullHandle ∧
      creations (CreateComputeShaderD3D11 (rejectingCompiler [101]) plainLines freshDevice
        [104] 1 0 []).2 = creations []) ∧
    (NoBytecode ((rejectingCompiler [101]) [] (compileArgs [104] 1 "gs_5_0" 0)) ∧
      (CreateGeometryShaderD3D11 (rejectingCompiler [101]) plainLines freshDevice
        [104] 1 0 []).1 = nullHandle ∧
      creations (CreateGeometryShaderD3D11 (rejectingCompiler [101]) plainLines freshDevice
        [104] 1 0 []).2 = creations []) :=
  ⟨⟨Or.inl rfl, (Create_shader_null_without_bytecode (rejectingCompiler [101]) plainLines
      freshDevice [104] 1 0 [] (some [1, 2])).1 (Or.inl rfl)⟩,
   ⟨Or.inl rfl, (Create_shader_null_without_bytecode (rejectingCompiler [101]) plainLines
      freshDevice [104] 1 0 [] (some [1, 2])).2.1 (Or.inl rfl)⟩,
   ⟨Or.inl rfl, (Create_shader_null_without_bytecode (rejectingCompiler [101]) plainLines
      freshDevice [104] 1 0 [] (some [1, 2])).2.2.1 (Or.inl rfl)⟩,
   ⟨Or.inl rfl, (Create_shader_null_without_bytecode (rejectingCompiler [101]) plainLines
      freshDevice [104] 1 0 [] (some [1, 2])).2.2.2 (Or.inl rfl)⟩⟩

/-- C6: when the compiler answers a non-empty bytecode blob and
`CreateVertexShaderD3D11` is given a non-null `byteCodeOut`, then on return
`*byteCodeOut` is that blob, it is not empty, and the one creation call the
device received carries that same blob with its length. -/
theorem CreateVertexShaderD3D11_copies_bytecode_out (c : Compiler) (l : List Byte → List Byte)
    (device : ID3D11Device) (code : List Byte) (n : Nat) (flags : Nat) (t : List Event)
    (previous blob : List Byte)
    (h : (c t (compileArgs code n "vs_5_0" flags)).compiledCode = some blob)
    (hne : blob ≠ []) :
    (CreateVertexShaderD3D11 c l device code n (some previous) flags t).2.1 = some blob ∧
    blob.length ≠ 0 ∧
    creations (CreateVertexShaderD3D11 c l device code n (some previous) flags t).2.2 =
      creations t ++ [(Request.CreateVertexShader blob blob.length, (CreateVertexShaderD3D11 c l
          device code n (some previous) flags t).1)] := by
  have h1 : (CompileShaderToBytecode c l code n "vs_5_0" flags t).1 = blob := by
    rw [CompileShaderToBytecode_fst, h]; rfl
  have h2 : (CompileShaderToBytecode c l code n "vs_5_0" flags t).1.isEmpty = false := by
    rw [h1]; cases blob with
    | nil => exact absurd rfl hne
    | cons b rest => rfl
  rw [CreateVertexShaderD3D11_eq, h2]
  simp only [Bool.false_eq_true, if_false, h1, Option.map_some']
  refine ⟨trivial, ?_, ?_⟩
  · intro h0; exact hne (List.length_eq_zero.1 h0)
  · rw [creations_deviceCreate, CompileShaderToBytecode_creations]

/-- The copy of C6 on a compiler that answers four bytes of bytecode and a
warning. -/
theorem CreateVertexShaderD3D11_copies_bytecode_out_witness :
    ((acceptingCompiler [68, 88, 66, 67]) [] (compileArgs [104] 1 "vs_5_0" 0)).compiledCode =
      some [68, 88, 66, 67] ∧
    ([68, 88, 66, 67] : List Byte) ≠ [] ∧
    (CreateVertexShaderD3D11 (acceptingCompiler [68, 88, 66, 67]) plainLines freshDevice
      [104] 1 (some [1, 2]) 0 []).2.1 = some [68, 88, 66, 67] ∧
    ([68, 88, 66, 67] : List Byte).length ≠ 0 ∧
    creations (CreateVertexShaderD3D11 (acceptingCompiler [68, 88, 66, 67]) plainLines freshDevice
      [104] 1 (some [1, 2]) 0 []).2.2 =
      creations [] ++
        [(Request.CreateVertexShader [68, 88, 66, 67] ([68, 88, 66, 67] : List Byte).length,
          (CreateVertexShaderD3D11 (acceptingCompiler [68, 88, 66, 67]) plainLines freshDevice
            [104] 1 (some [1, 2]) 0 []).1)] :=
  ⟨rfl, by decide,
    CreateVertexShaderD3D11_copies_bytecode_out (acceptingCompiler [68, 88, 66, 67]) plainLines
      freshDevice [104] 1 0 [] [1, 2] [68, 88, 66, 67] rfl (by decide)⟩

/-- C10: each function calls the compiler exactly once, with the caller's code,
code size and flags unchanged, the entry point "main", no source name, defines
or include handler, second flags 0, and its own target: "vs_5_0", "ps_5_0",
"cs_5_0", "gs_5_0". -/
theorem Create_shader_compiler_call (c : Compiler) (l : List Byte → List Byte)
    (device : ID3D11Device) (code : List Byte) (n : Nat) (flags : Nat) (t : List Event)
    (byteCodeOut : Option (List Byte)) :
    compilations (CreateVertexShaderD3D11 c l device code n byteCodeOut flags t).2.2 =
      compilations t ++
        [{ pSrcData := code, SrcDataSize := n, pSourceName := none, pDefines := none,
           pInclude := none, pEntrypoint := "main", pTarget := "vs_5_0", Flags1 := flags,
           Flags2 := 0 }] ∧
    compilations (CreatePixelShaderD3D11 c l device code n flags t).2 =
      compilations t ++
        [{ pSrcData := code, SrcDataSize := n, pSourceName := none, pDefines := none,
           pInclude := none, pEntrypoint := "main", pTarget := "ps_5_0", Flags1 := flags,
           Flags2 := 0 }] ∧
    compilations (CreateComputeShaderD3D11 c l device code n flags t).2 =
      compilations t ++
        [{ pSrcData := code, SrcDataSize := n, pSourceName := none, pDefines := none,
           pInclude := none, pEntrypoint := "main", pTarget := "cs_5_0", Flags1 := flags,
           Flags2 := 0 }] ∧
    compilations (CreateGeometryShaderD3D11 c l device code n flags t).2 =
      compilations t ++
        [{ pSrcData := code, SrcDataSize := n, pSourceName := none, pDefines := none,
           pInclude := none, pEntrypoint := "main", pTarget := "gs_5_0", Flags1 := flags,
           Flags2 := 0 }] := by
  refine ⟨?_, ?_, ?_, ?_⟩
  · rw [CreateVertexShaderD3D11_eq]
    split
    · exact CompileShaderToBytecode_compilations _ _ _ _ _ _ _
    · rw [compilations_deviceCreate]; exact CompileShaderToBytecode_compilations _ _ _ _ _ _ _
  · rw [CreatePixelShaderD3D11_eq]
    split
    · exact CompileShaderToBytecode_compilations _ _ _ _ _ _ _
    · rw [compilations_deviceCreate]; exact CompileShaderToBytecode_compilations _ _ _ _ _ _ _
  · rw [CreateComputeShaderD3D11_eq]
    split
    · exact CompileShaderToBytecode_compilations _ _ _ _ _ _ _
    · rw [compilations_deviceCreate]; exact CompileShaderToBytecode_compilations _ _ _ _ _ _ _
  · rw [CreateGeometryShaderD3D11_eq]
    split
    · exact CompileShaderToBytecode_compilations _ _ _ _ _ _ _
    · rw [compilations_deviceCreate]; exact CompileShaderToBytecode_compilations _ _ _ _ _ _ _

end D3D11Util
